import Mathlib

/-!
Verification of the ai-video-framework pipeline against its specification.

The Python sources are shallowly embedded: pure computations become Lean
functions; calls to external services (HTTP providers, text-to-speech,
JSON decoding of LLM output) are parameterized by explicit environment
values describing the outcome of each external interaction; the file
system is an explicit map from paths to file data.  Machine integers in
the sources never approach overflow, so Nat/Int are used directly.
-/

namespace AIVideo

/-! ## models.py — state labels, profiles, data classes -/

/-- `PhysioState` from models.py: the six hardcoded state labels. -/
inductive PhysioState where
  | calm
  | focus
  | energized
  | pre_sleep
  | stressed
  | neutral
deriving DecidableEq, Repr

/-- The `str` value of each enum member (`PhysioState(str, Enum)`). -/
def PhysioState.value : PhysioState → String
  | .calm => "calm"
  | .focus => "focus"
  | .energized => "energized"
  | .pre_sleep => "pre_sleep"
  | .stressed => "stressed"
  | .neutral => "neutral"

/-- One entry of `STATE_PROFILES` in models.py. -/
structure StateProfile where
  target : String
  categories : List String
  tone : String
  arousal : String
  duration_s : Nat × Nat
  pace : String
  color_grade : String
  narration : String
  pre_sleep_ok : Bool
deriving DecidableEq, Repr

/-- `STATE_PROFILES` from models.py.  The Python dict has exactly one entry
per enum member, so it is embedded as a total function. -/
def STATE_PROFILES : PhysioState → StateProfile
  | .calm =>
    { target := "maintain calm, deepen relaxation"
      categories := ["nature", "asmr", "mindfulness", "ambient_music"]
      tone := "slow, soothing, meditative"
      arousal := "very_low"
      duration_s := (30, 60)
      pace := "slow cuts, lingering shots"
      color_grade := "cool, desaturated, soft"
      narration := "gentle, unhurried, soft voice"
      pre_sleep_ok := true }
  | .focus =>
    { target := "maintain focus, reduce distractions"
      categories := ["lofi_study", "productivity", "minimalist", "explainer"]
      tone := "clean, clear, purposeful"
      arousal := "low_medium"
      duration_s := (30, 55)
      pace := "steady rhythm, minimal motion"
      color_grade := "neutral, high contrast text, clean"
      narration := "clear, measured, informative"
      pre_sleep_ok := true }
  | .energized =>
    { target := "sustain energy, boost motivation"
      categories := ["motivational", "fitness", "upbeat_music", "highlights"]
      tone := "dynamic, punchy, inspiring"
      arousal := "high"
      duration_s := (15, 45)
      pace := "fast cuts, high motion"
      color_grade := "warm, saturated, vibrant"
      narration := "upbeat, confident, energetic"
      pre_sleep_ok := false }
  | .pre_sleep =>
    { target := "reduce arousal, prepare for sleep"
      categories := ["sleep_story", "breathing_guide", "gentle_nature", "white_noise"]
      tone := "whispered, dreamy, ultra-slow"
      arousal := "very_low"
      duration_s := (45, 60)
      pace := "very slow dissolves, static shots"
      color_grade := "very dark, warm amber, deep blue"
      narration := "whispered, minimal, sleep-cue language"
      pre_sleep_ok := true }
  | .stressed =>
    { target := "reduce stress, lower arousal"
      categories := ["nature", "humor_light", "breathing_guide", "calming_music"]
      tone := "warm, reassuring, grounding"
      arousal := "low"
      duration_s := (30, 60)
      pace := "gentle, unhurried"
      color_grade := "warm greens and blues, soft"
      narration := "empathetic, grounding, calm"
      pre_sleep_ok := true }
  | .neutral =>
    { target := "engage lightly without arousal shift"
      categories := ["news_explainer", "trivia", "lofi_study", "ambient_music"]
      tone := "neutral, informative"
      arousal := "medium"
      duration_s := (20, 50)
      pace := "moderate"
      color_grade := "balanced"
      narration := "clear, neutral"
      pre_sleep_ok := true }

/-- `Scene` dataclass from models.py. -/
structure Scene where
  scene_id : Nat
  title : String
  narration : String
  visual_prompt : String
  duration_s : Nat
  mood : String
  transition : String := "fade"
deriving DecidableEq, Repr

/-- `VideoScript` dataclass from models.py. -/
structure VideoScript where
  video_id : String
  topic : String
  state : PhysioState
  category : String
  total_s : Nat
  scenes : List Scene := []
  title : String := ""
  description : String := ""
deriving DecidableEq, Repr

/-- `VideoConfig` dataclass from models.py. -/
structure VideoConfig where
  width : Nat := 1280
  height : Nat := 720
  fps : Nat := 24
  temp_dir : String := "./temp_ppv"
  output_dir : String := "./output_ppv"
deriving DecidableEq, Repr

/-! ## Python string helpers shared by the embeddings -/

/-- Python `s[:n]`. -/
def pySlice (s : String) (n : Nat) : String := ⟨s.data.take n⟩

/-- Python `s.split(",")[0]`: the text before the first comma
(the whole string when no comma occurs). -/
def pyBeforeComma (s : String) : String := ⟨s.data.takeWhile (fun c => c != ',')⟩

/-- Whitespace trimming of a character list at both ends (Python `str.strip()`
over the whitespace characters that occur in this code base). -/
def stripList (l : List Char) : List Char :=
  ((l.dropWhile Char.isWhitespace).reverse.dropWhile Char.isWhitespace).reverse

/-- Python `s.strip()`. -/
def pyStrip (s : String) : String := ⟨stripList s.data⟩

/-- One character step of Python `str.title()`: a cased character is
uppercased after a non-alphabetic character and lowercased otherwise. -/
def titleStep : Bool → List Char → List Char
  | _, [] => []
  | prevAlpha, c :: rest =>
    (if c.isAlpha && !prevAlpha then c.toUpper
     else if c.isAlpha && prevAlpha then c.toLower
     else c) :: titleStep c.isAlpha rest

/-- Python `s.title()`. -/
def pyTitle (s : String) : String := ⟨titleStep false s.data⟩

/-! ## script_generator.py — deterministic fallback script -/

/-- `ScriptGenerator.fallback` from script_generator.py.  The random
`str(uuid.uuid4())[:8]` identifier is an explicit parameter; everything
else is computed exactly as the source does. -/
def ScriptGenerator.fallback (topic : String) (state : PhysioState)
    (video_id : String) : VideoScript :=
  let profile := STATE_PROFILES state
  -- profile["categories"][0]; every profile's category list is nonempty
  let category := profile.categories.headD ""
  let scenes : List Scene :=
    [ { scene_id := 1, title := "Opening"
        narration := "Welcome to this " ++ state.value ++ " experience about " ++ topic ++ "."
        visual_prompt := topic ++ " wide shot, soft lighting, " ++ profile.color_grade
        duration_s := 15, mood := "neutral", transition := "fade" }
    , { scene_id := 2, title := "Journey"
        narration := "Let yourself settle into the moment as we explore " ++ topic ++ "."
        visual_prompt := topic ++ " close detail, ambient mood, " ++ profile.color_grade
        duration_s := 15, mood := "serene", transition := "fade" }
    , { scene_id := 3, title := "Closing"
        narration := "Carry this feeling with you as you return to your day."
        visual_prompt := topic ++ " gentle fade, peaceful, " ++ profile.color_grade
        duration_s := 15, mood := "serene", transition := "fade" } ]
  { video_id := video_id
    topic := topic
    state := state
    category := category
    total_s := 45
    scenes := scenes
    title := topic ++ " — " ++ pyTitle state.value ++ " Experience"
    description := "A " ++ state.value ++ " short-form video about " ++ topic ++ "." }

/-! ## image_fetcher.py — mood gradients, query building, fetch -/

/-- A color triple as used by the gradient table. -/
abbrev RGB := Nat × Nat × Nat

/-- `MOOD_GRADIENTS` from image_fetcher.py. -/
def MOOD_GRADIENTS : List (String × (RGB × RGB)) :=
  [ ("serene",    ((135, 195, 215), (60, 110, 160)))
  , ("focused",   ((220, 220, 220), (80, 80, 100)))
  , ("energetic", ((255, 160, 50), (200, 50, 30)))
  , ("dreamy",    ((180, 140, 210), (80, 60, 130)))
  , ("grounding", ((120, 170, 90), (50, 90, 50)))
  , ("uplifting", ((255, 210, 80), (220, 130, 30)))
  , ("neutral",   ((160, 160, 160), (80, 80, 80))) ]

/-- `MOOD_GRADIENTS.get(mood, MOOD_GRADIENTS["neutral"])`: the default is
the table's "neutral" entry, written out literally. -/
def moodColors (mood : String) : RGB × RGB :=
  (MOOD_GRADIENTS.lookup mood).getD ((160, 160, 160), (80, 80, 80))

/-- `ImageFetcher._build_query` from image_fetcher.py. -/
def buildQuery (scene : Scene) (state : PhysioState) : String :=
  let profile := STATE_PROFILES state
  let category := profile.categories.headD ""
  -- scene.visual_prompt[:60].split(",")[0].strip()
  let short := pyStrip (pyBeforeComma (pySlice scene.visual_prompt 60))
  short ++ " " ++ category

/-- The query as the spec words it: the text before the first comma in
`visual_prompt`, truncated to 60 characters, joined with the profile's
primary category.  Kept as a separate definition so it can be compared
with the source-derived `buildQuery`. -/
def specSearchQuery (scene : Scene) (state : PhysioState) : String :=
  let profile := STATE_PROFILES state
  let category := profile.categories.headD ""
  let short := pyStrip (pySlice (pyBeforeComma scene.visual_prompt) 60)
  short ++ " " ++ category

/-! ## External-interaction and file-system model -/

/-- Outcome of one Python expression that may raise: either an exception
(any `Exception`) or a value. -/
inductive PyOutcome (α : Type) where
  | exn
  | ok (a : α)
deriving DecidableEq, Repr

/-- The part of a `requests` response the sources inspect: the status code
and the byte length of the body. -/
structure HttpResp where
  status : Nat
  content : Nat
deriving DecidableEq, Repr

/-- Contents of a file created by the pipeline: raw downloaded bytes, or a
JPEG encoded by PIL.  The JPEG constructor records the data the gradient
fallback draws (colors chosen by mood, canvas size, centered caption). -/
inductive FileData where
  | bytes (n : Nat)
  | jpeg (colors : RGB × RGB) (width height : Nat) (caption : String)
deriving DecidableEq, Repr

/-- A file is non-empty.  An encoded JPEG always contains at least its
SOI/EOI markers, so the `jpeg` case is unconditionally non-empty. -/
def FileData.nonempty : FileData → Bool
  | .bytes n => n != 0
  | .jpeg _ _ _ _ => true

/-- The file system: a map from path strings to file contents. -/
def FS : Type := String → Option FileData

/-- Writing a file (Python `open(path, "wb")` followed by `write`, or
`img.save(path)`). -/
def fsWrite (fs : FS) (path : String) (d : FileData) : FS :=
  fun q => if q = path then some d else fs q

/-- The providers an asset-resolution call can contact, in the roles the
spec gives them: provider A is the image search (two URL variants),
providers B and C are the Pexels and Pixabay video searches, and the
gradient is the procedural fallback. -/
inductive Provider where
  | pexels
  | pixabay
  | unsplash1
  | unsplash2
  | gradient
deriving DecidableEq, Repr

/-- Result of one asset-resolution call: the returned path, the file
system after the call, and the providers actually contacted, in order. -/
structure FetchOut where
  path : String
  fs : FS
  trace : List Provider

/-! ## image_fetcher.py — gradient fallback and fetch -/

/-- `ImageFetcher._gradient_fallback`: builds a vertical gradient between
the mood's color pair, blurs it, draws the scene title centered, and
saves a JPEG at `save_path`.  Returns `save_path`. -/
def gradientFallback (scene : Scene) (config : VideoConfig)
    (savePath : String) (fs : FS) : String × FS :=
  let colors := moodColors scene.mood
  (savePath,
   fsWrite fs savePath (.jpeg colors config.width config.height scene.title))

/-- Outcomes of the two bounded-time Unsplash requests issued by
`ImageFetcher._try_unsplash` (one per URL variant). -/
structure UnsplashEnv where
  attempt1 : PyOutcome HttpResp
  attempt2 : PyOutcome HttpResp
deriving DecidableEq, Repr

/-- One loop iteration of `ImageFetcher._try_unsplash`: the response is
accepted only when the request did not raise, the status is 200 and the
payload exceeds 8000 bytes; the accepted payload is written to
`save_path`. -/
def unsplashAttempt (a : PyOutcome HttpResp) (savePath : String) (fs : FS) :
    Option (String × FS) :=
  match a with
  | .exn => none
  | .ok r =>
    if r.status == 200 && decide (r.content > 8000) then
      some (savePath, fsWrite fs savePath (.bytes r.content))
    else none

/-- `ImageFetcher.fetch`: try the two Unsplash URL variants in order, then
fall back to the procedural gradient. -/
def imageFetch (env : UnsplashEnv) (scene : Scene) (state : PhysioState)
    (config : VideoConfig) (savePath : String) (fs : FS) : FetchOut :=
  let _query := buildQuery scene state
  match unsplashAttempt env.attempt1 savePath fs with
  | some (p, fs2) => ⟨p, fs2, [.unsplash1]⟩
  | none =>
    match unsplashAttempt env.attempt2 savePath fs with
    | some (p, fs2) => ⟨p, fs2, [.unsplash1, .unsplash2]⟩
    | none =>
      let g := gradientFallback scene config savePath fs
      ⟨g.1, g.2, [.unsplash1, .unsplash2, .gradient]⟩

/-! ## voice_generator.py -/

/-- `STATE_VOICE` entry: language, top-level domain, slow flag. -/
structure VoiceProfile where
  lang : String
  tld : String
  slow : Bool
deriving DecidableEq, Repr

/-- `STATE_VOICE` from voice_generator.py. -/
def STATE_VOICE : List (PhysioState × VoiceProfile) :=
  [ (.calm,      ⟨"en", "co.uk", true⟩)
  , (.focus,     ⟨"en", "com", false⟩)
  , (.energized, ⟨"en", "com.au", false⟩)
  , (.pre_sleep, ⟨"en", "co.uk", true⟩)
  , (.stressed,  ⟨"en", "co.uk", true⟩)
  , (.neutral,   ⟨"en", "com", false⟩) ]

/-- `STATE_VOICE.get(state, STATE_VOICE[PhysioState.NEUTRAL])`; the
default is the table's neutral entry, written out literally. -/
def stateVoice (state : PhysioState) : VoiceProfile :=
  (STATE_VOICE.lookup state).getD ⟨"en", "com", false⟩

/-- Environment of one `VoiceGenerator.generate` call: whether gtts
imported, and the outcome of `gTTS(...).save(save_path)` (exception, or
success writing `n` bytes of audio). -/
structure VoiceEnv where
  hasGtts : Bool
  ttsSave : PyOutcome Nat
deriving DecidableEq, Repr

/-- `VoiceGenerator.generate`: returns `None` when gtts is missing, wraps
the synthesis call in a catch-all `try` returning `None` on any
exception, and returns `save_path` on success.  The embedding is a total
function because every exception the source can see is caught. -/
def VoiceGenerator.generate (env : VoiceEnv) (text : String)
    (state : PhysioState) (savePath : String) (fs : FS) :
    Option String × FS :=
  if !env.hasGtts then (none, fs)
  else
    let _voice := stateVoice state
    match env.ttsSave with
    | .exn => (none, fs)
    | .ok n => (some savePath, fsWrite fs savePath (.bytes n))

/-! ## pipeline.py / pipeline_enhanced.py — cleanup and batch -/

/-- `_cleanup` (identical in pipeline.py and pipeline_enhanced.py): unlink
every temp file matching the glob `{video_id}_*` and count removals.  The
temp directory is modeled as the list of its file names; the result is
the remaining names and the number removed. -/
def cleanup (video_id : String) (files : List String) : List String × Nat :=
  let matched := files.filter (fun f => f.startsWith (video_id ++ "_"))
  (files.filter (fun f => !(f.startsWith (video_id ++ "_"))), matched.length)

/-- A batch job: `{"topic": ..., "state": ...}`. -/
structure Job where
  topic : String
  state : PhysioState
deriving DecidableEq, Repr

/-- One entry of the list `run_batch` returns: either the successful run's
result dict, or `{"status": "error", "error": str(e), **job}`. -/
inductive BatchEntry (α : Type) where
  | ok (r : α)
  | failed (error : String) (job : Job)
deriving DecidableEq, Repr

/-- `run_batch` (identical control flow in pipeline.py and
pipeline_enhanced.py): iterate the jobs in order; each `self.run` call is
wrapped in a `try` whose `except` records a failed entry and lets the
loop continue.  The behavior of `self.run` on each job is the explicit
parameter `run` (a raised exception is `Except.error` with its message). -/
def runBatch {α : Type} (run : Job → Except String α) (jobs : List Job) :
    List (BatchEntry α) :=
  jobs.map fun job =>
    match run job with
    | .ok r => .ok r
    | .error e => .failed e job

/-! ## video_fetcher.py — video providers and the enhanced resolver -/

/-- Python `save_path.replace(".jpg", ".mp4")` on the character list:
left-to-right, non-overlapping, replacing every occurrence. -/
def replaceJpgMp4 : List Char → List Char
  | a :: b :: c :: d :: rest =>
    if a = '.' ∧ b = 'j' ∧ c = 'p' ∧ d = 'g' then
      '.' :: 'm' :: 'p' :: '4' :: replaceJpgMp4 rest
    else
      a :: replaceJpgMp4 (b :: c :: d :: rest)
  | a :: rest => a :: replaceJpgMp4 rest
  | [] => []

/-- `save_path.replace('.jpg', '.mp4')` as used by both video providers. -/
def jpgToMp4 (savePath : String) : String := ⟨replaceJpgMp4 savePath.data⟩

/-- Python truthiness of `os.getenv(...)`: `None` and the empty string are
falsy. -/
def pyTruthy : Option String → Bool
  | none => false
  | some s => s != ""

/-- One `video_files` entry of a Pexels search result. -/
structure PexelsVideoFile where
  file_type : String
  quality : String
  link : String
deriving DecidableEq, Repr

/-- One `videos` entry of a Pexels search result (`duration` defaulted to
0 when absent, as `video.get('duration', 0)` does). -/
structure PexelsVideo where
  duration : Nat
  video_files : List PexelsVideoFile
deriving DecidableEq, Repr

/-- Environment of `VideoFetcher._try_pexels_video`: the API key from the
environment, the outcome of the search request (status code and decoded
`videos` list; a missing or empty `videos` field is the empty list, and a
raised request or JSON error is `exn`), and the outcome of downloading
any given URL. -/
structure PexelsEnv where
  key : Option String
  search : PyOutcome (Nat × List PexelsVideo)
  download : String → PyOutcome HttpResp

/-- `VideoFetcher._try_pexels_video`: skip without contact when the key is
falsy; on a 200 search, take the first video of duration ≤ 30, its first
`video/mp4` file of quality `hd` or `sd`, download it once, and on a 200
download write it to the `.jpg`→`.mp4` path; everything else (including
any exception) yields `None`. -/
def tryPexelsVideo (env : PexelsEnv) (savePath : String) (fs : FS) :
    Option (String × FS) :=
  if !pyTruthy env.key then none
  else
    match env.search with
    | .exn => none
    | .ok (status, videos) =>
      if status == 200 then
        match videos.find? (fun v => decide (v.duration ≤ 30)) with
        | some v =>
          match v.video_files.find? (fun vf =>
              vf.file_type == "video/mp4" &&
                (vf.quality == "hd" || vf.quality == "sd")) with
          | some vf =>
            match env.download vf.link with
            | .ok r =>
              if r.status == 200 then
                let videoPath := jpgToMp4 savePath
                some (videoPath, fsWrite fs videoPath (.bytes r.content))
              else none
            | .exn => none
          | none => none
        | none => none
      else none

/-- One `hits` entry of a Pixabay search result: its `videos` dict as an
association list from quality name to that rendition's `url`. -/
structure PixabayHit where
  videos : List (String × String)
deriving DecidableEq, Repr

/-- Environment of `VideoFetcher._try_pixabay_video`, analogous to
`PexelsEnv`. -/
structure PixabayEnv where
  key : Option String
  search : PyOutcome (Nat × List PixabayHit)
  download : String → PyOutcome HttpResp

/-- `VideoFetcher._try_pixabay_video`: skip without contact when the key
is falsy; on a 200 search take the first hit, pick the first present
quality among medium → small → tiny, download it once, and on a 200
download write it to the `.jpg`→`.mp4` path; anything else yields
`None`. -/
def tryPixabayVideo (env : PixabayEnv) (savePath : String) (fs : FS) :
    Option (String × FS) :=
  if !pyTruthy env.key then none
  else
    match env.search with
    | .exn => none
    | .ok (status, hits) =>
      if status == 200 then
        match hits with
        | [] => none
        | hit :: _ =>
          match ["medium", "small", "tiny"].find?
              (fun q => (hit.videos.lookup q).isSome) with
          | some q =>
            match hit.videos.lookup q with
            | some url =>
              match env.download url with
              | .ok r =>
                if r.status == 200 then
                  let videoPath := jpgToMp4 savePath
                  some (videoPath, fsWrite fs videoPath (.bytes r.content))
                else none
              | .exn => none
            | none => none
          | none => none
      else none

/-- `movement_words` from `VideoFetcher._build_query`. -/
def movementWords : PhysioState → String
  | .calm => "slow motion gentle peaceful"
  | .focus => "steady minimal clean"
  | .energized => "dynamic motion active"
  | .pre_sleep => "very slow dreamy soft"
  | .stressed => "calming soothing"
  | .neutral => "natural"

/-- `VideoFetcher._build_query`. -/
def videoBuildQuery (scene : Scene) (state : PhysioState) : String :=
  let profile := STATE_PROFILES state
  let category := profile.categories.headD ""
  let mainSubject := pyStrip (pyBeforeComma scene.visual_prompt)
  mainSubject ++ " " ++ movementWords state ++ " " ++ category

/-- Environment of one `VideoFetcher.fetch_video` call. -/
structure VideoFetchEnv where
  pexels : PexelsEnv
  pixabay : PixabayEnv
  unsplash : UnsplashEnv

/-- `VideoFetcher.fetch_video`: Pexels video, `or` Pixabay video, `or`
the image fetcher (Unsplash then gradient).  Trace entries record the
providers actually contacted (a provider skipped for lack of a key is
not contacted). -/
def fetchVideo (env : VideoFetchEnv) (scene : Scene) (state : PhysioState)
    (config : VideoConfig) (savePath : String) (fs : FS) : FetchOut :=
  let _query := videoBuildQuery scene state
  let pexTrace : List Provider := if pyTruthy env.pexels.key then [.pexels] else []
  match tryPexelsVideo env.pexels savePath fs with
  | some (p, fs2) => ⟨p, fs2, pexTrace⟩
  | none =>
    let pixTrace : List Provider := if pyTruthy env.pixabay.key then [.pixabay] else []
    match tryPixabayVideo env.pixabay savePath fs with
    | some (p, fs2) => ⟨p, fs2, pexTrace ++ pixTrace⟩
    | none =>
      let img := imageFetch env.unsplash scene state config savePath fs
      ⟨img.path, img.fs, pexTrace ++ pixTrace ++ img.trace⟩

/-! ## Spec-side view of the provider chain (for the ordering claim) -/

/-- Whether a provider of the chain is skipped without being contacted
(only the key-gated video providers can be). -/
def providerSkipped (env : VideoFetchEnv) : Provider → Bool
  | .pexels => !pyTruthy env.pexels.key
  | .pixabay => !pyTruthy env.pixabay.key
  | .unsplash1 => false
  | .unsplash2 => false
  | .gradient => false

/-- Whether a provider, when consulted, accepts (produces an asset). -/
def providerAccepts (env : VideoFetchEnv) (savePath : String) (fs : FS) :
    Provider → Bool
  | .pexels => (tryPexelsVideo env.pexels savePath fs).isSome
  | .pixabay => (tryPixabayVideo env.pixabay savePath fs).isSome
  | .unsplash1 => (unsplashAttempt env.unsplash.attempt1 savePath fs).isSome
  | .unsplash2 => (unsplashAttempt env.unsplash.attempt2 savePath fs).isSome
  | .gradient => true

/-- Cut an ordered provider list at its first accepting member: everything
before it is contacted and rejects, it is contacted and accepted, nothing
after it is contacted. -/
def cutAtAccept (acc : Provider → Bool) : List Provider → List Provider
  | [] => []
  | p :: ps => if acc p then [p] else p :: cutAtAccept acc ps

/-- The chain order the code implements: Pexels video, Pixabay video, the
two image-search URL variants, then the gradient. -/
def codeChain : List Provider :=
  [.pexels, .pixabay, .unsplash1, .unsplash2, .gradient]

/-- The contact sequence of an ordered fallback chain: drop the skipped
providers, then stop at the first accepting one. -/
def chainContacts (env : VideoFetchEnv) (savePath : String) (fs : FS)
    (chain : List Provider) : List Provider :=
  cutAtAccept (providerAccepts env savePath fs)
    (chain.filter (fun p => !providerSkipped env p))

/-- C2 as the claim states it: the image search (provider A) is first in
the enhanced resolver's chain, so whenever its first URL variant accepts,
it is the first provider contacted and its result (written to the
destination path) is returned. -/
def claimC2Prop : Prop :=
  ∀ (env : VideoFetchEnv) (scene : Scene) (state : PhysioState)
    (config : VideoConfig) (savePath : String) (fs : FS),
    providerAccepts env savePath fs .unsplash1 = true →
      (fetchVideo env scene state config savePath fs).trace.head?
          = some Provider.unsplash1
      ∧ (fetchVideo env scene state config savePath fs).path = savePath

/-- Either video provider download succeeded (the condition under which
`fetch_video` returns the `.mp4` path). -/
def videoProviderAccepted (env : VideoFetchEnv) (savePath : String) (fs : FS) : Bool :=
  (tryPexelsVideo env.pexels savePath fs).isSome
    || (tryPixabayVideo env.pixabay savePath fs).isSome

/-! ## video_assembler_enhanced.py — media-type branch -/

/-- Python `s.lower()`. -/
def pyLower (s : String) : String := ⟨s.data.map Char.toLower⟩

/-- `suf` is a suffix of `l` (Python `endswith`), as a Boolean. -/
def endsWithL (suf l : List Char) : Bool := suf.reverse.isPrefixOf l.reverse

/-- The branch in `EnhancedVideoAssembler._make_enhanced_scene_clip`:
`media_path.lower().endswith(('.mp4', '.mov', '.avi'))`. -/
def isVideoMediaPath (p : String) : Bool :=
  endsWithL ('.' :: 'm' :: 'p' :: '4' :: []) (pyLower p).data
    || endsWithL ('.' :: 'm' :: 'o' :: 'v' :: []) (pyLower p).data
    || endsWithL ('.' :: 'a' :: 'v' :: 'i' :: []) (pyLower p).data

/-- C10 as the claim states it: for a destination ending in ".jpg" the
returned path is either the destination itself or the destination with
its ".jpg" suffix (only) replaced by ".mp4". -/
def claimC10Prop : Prop :=
  ∀ (env : VideoFetchEnv) (scene : Scene) (state : PhysioState)
    (config : VideoConfig) (savePath : String) (fs : FS),
    endsWithL ('.' :: 'j' :: 'p' :: 'g' :: []) savePath.data = true →
      (fetchVideo env scene state config savePath fs).path = savePath
      ∨ (fetchVideo env scene state config savePath fs).path
          = ⟨savePath.data.take (savePath.data.length - 4)
              ++ ('.' :: 'm' :: 'p' :: '4' :: [])⟩

/-! ## script_generator.py — response parsing (`_parse`)

`json.loads` is Python-stdlib decoding of an arbitrary LLM response; it is
treated as an external capability, an oracle `String → Option Json`
returning `none` exactly when it raises `JSONDecodeError`.  Everything
after decoding is embedded from the source.  Python dataclasses do not
check field types, so the per-scene fields keep their decoded `Json`
values. -/

/-- Decoded JSON values. -/
inductive Json where
  | null
  | bool (b : Bool)
  | num (n : Int)
  | str (s : String)
  | arr (items : List Json)
  | obj (entries : List (String × Json))

/-- Exceptions `_parse` can raise. -/
inductive PyErr where
  | jsonDecodeError
  | keyError (key : String)
  | typeError
deriving DecidableEq, Repr

/-- Python subscription `j[key]` with a string key: a dict lookup raising
`KeyError` when absent; any non-dict raises `TypeError`. -/
def Json.getItem (j : Json) (key : String) : Except PyErr Json :=
  match j with
  | .obj entries =>
    match entries.lookup key with
    | some v => .ok v
    | none => .error (.keyError key)
  | _ => .error .typeError

/-- Python iteration `for s in j`: lists yield their items, strings their
one-character substrings, dicts their keys; other values raise
`TypeError`. -/
def Json.pyIterate : Json → Except PyErr (List Json)
  | .arr items => .ok items
  | .str s => .ok (s.data.map fun c => Json.str ⟨[c]⟩)
  | .obj entries => .ok (entries.map fun kv => Json.str kv.1)
  | _ => .error .typeError

/-- Python `j.get(key, default)`; in `_parse` it is only reached on dict
values. -/
def Json.pyGet (j : Json) (key : String) (dflt : Json) : Json :=
  match j with
  | .obj entries => (entries.lookup key).getD dflt
  | _ => dflt

/-- The fence-stripping prelude of `_parse`: if the text starts with three
backticks, keep what stands between the first and second fence, drop a
leading "json" tag, and strip surrounding whitespace. -/
def stripFences (raw : String) : String :=
  let text := raw
  let text :=
    if text.startsWith "```" then
      let t := (text.splitOn "```").getD 1 ""
      if t.startsWith "json" then t.drop 4 else t
    else text
  text.trim

/-- A scene as `_parse` constructs it: a `Scene` dataclass whose fields
hold whatever JSON values the response supplied (Python dataclasses do
not enforce the annotations). -/
structure RawScene where
  scene_id : Json
  title : Json
  narration : Json
  visual_prompt : Json
  duration_s : Json
  mood : Json
  transition : Json

/-- The `VideoScript` `_parse` constructs, with the duck-typed title and
description kept as JSON values. -/
structure RawScript where
  video_id : String
  topic : String
  state : PhysioState
  category : String
  total_s : Nat
  scenes : List RawScene
  title : Json
  description : Json

/-- One element of the scene list comprehension in `_parse`: the four
required subscriptions, then the three `.get` calls with defaults
(`defaultDur` is `total_s // max(len(data["scenes"]), 1)`). -/
def parseSceneItem (s : Json) (defaultDur : Json) : Except PyErr RawScene :=
  match s.getItem "scene_id" with
  | .error e => .error e
  | .ok sid =>
    match s.getItem "title" with
    | .error e => .error e
    | .ok t =>
      match s.getItem "narration" with
      | .error e => .error e
      | .ok n =>
        match s.getItem "visual_prompt" with
        | .error e => .error e
        | .ok vp =>
          .ok { scene_id := sid, title := t, narration := n, visual_prompt := vp
                duration_s := s.pyGet "duration_s" defaultDur
                mood := s.pyGet "mood" (.str "neutral")
                transition := s.pyGet "transition" (.str "fade") }

/-- The scene list comprehension of `_parse`, in evaluation order. -/
def parseScenes (items : List Json) (defaultDur : Json) :
    Except PyErr (List RawScene) :=
  match items with
  | [] => .ok []
  | s :: rest =>
    match parseSceneItem s defaultDur with
    | .error e => .error e
    | .ok r =>
      match parseScenes rest defaultDur with
      | .error e => .error e
      | .ok rs => .ok (r :: rs)

/-- `ScriptGenerator._parse`: strip fences, decode, read `data["scenes"]`,
iterate it, build the scenes, and assemble the script (the random
`uuid` prefix is the explicit `video_id` parameter). -/
def ScriptGenerator.parse (loads : String → Option Json) (raw topic : String)
    (state : PhysioState) (category : String) (total_s : Nat)
    (video_id : String) : Except PyErr RawScript :=
  let text := stripFences raw
  match loads text with
  | none => .error .jsonDecodeError
  | some data =>
    match data.getItem "scenes" with
    | .error e => .error e
    | .ok scenesJson =>
      match scenesJson.pyIterate with
      | .error e => .error e
      | .ok items =>
        match parseScenes items (.num (Int.ofNat (total_s / max items.length 1))) with
        | .error e => .error e
        | .ok scenes =>
          .ok { video_id := video_id, topic := topic, state := state
                category := category, total_s := total_s, scenes := scenes
                title := data.pyGet "title" (.str topic)
                description := data.pyGet "description" (.str "") }

/-- A scene entry supplies the four fields `_parse` subscripts without a
default (it must be a dict holding all four keys). -/
def sceneItemRequired (s : Json) : Bool :=
  match s with
  | .obj entries =>
    (entries.lookup "scene_id").isSome && (entries.lookup "title").isSome
      && (entries.lookup "narration").isSome
      && (entries.lookup "visual_prompt").isSome
  | _ => false

/-- The decoded `"scenes"` value lets the comprehension finish: a list of
well-formed scene entries, or a value whose Python iteration is empty (an
empty string or empty dict). -/
def scenesValueOk (v : Json) : Bool :=
  match v with
  | .arr items => items.all sceneItemRequired
  | .str s => s.data.isEmpty
  | .obj entries => entries.isEmpty
  | _ => false

/-- The decoded response parses without an exception. -/
def responseOk (data : Json) : Bool :=
  match data with
  | .obj entries =>
    match entries.lookup "scenes" with
    | some v => scenesValueOk v
    | none => false
  | _ => false

/-- A concrete well-formed scene entry, used to exercise the parser. -/
def sampleSceneJson : Json :=
  Json.obj [("scene_id", Json.num 1), ("title", Json.str "T"),
    ("narration", Json.str "N"), ("visual_prompt", Json.str "V")]

/-- A concrete well-formed response holding one scene. -/
def sampleResponse : Json := Json.obj [("scenes", Json.arr [sampleSceneJson])]

/-- A decode oracle returning the sample response for any text. -/
def sampleLoads : String → Option Json := fun _ => some sampleResponse

/-- The script `_parse` builds from `sampleResponse` with total duration
45: the absent per-scene fields receive their defaults. -/
def sampleParsed : RawScript :=
  { video_id := "id", topic := "t", state := .calm, category := "c"
    total_s := 45
    scenes := [{ scene_id := Json.num 1, title := Json.str "T"
                 narration := Json.str "N", visual_prompt := Json.str "V"
                 duration_s := Json.num 45, mood := Json.str "neutral"
                 transition := Json.str "fade" }]
    title := Json.str "t", description := Json.str "" }

/-- C3 as the claim states it: after fence stripping, parsing fails
exactly when the JSON is invalid or the decoded object is missing the
"scenes" key. -/
def claimC3Prop : Prop :=
  ∀ (loads : String → Option Json) (raw topic : String) (state : PhysioState)
    (category : String) (total_s : Nat) (video_id : String),
    (ScriptGenerator.parse loads raw topic state category total_s video_id).isOk
        = false
      ↔ match loads (stripFences raw) with
        | none => True
        | some data => (data.getItem "scenes").isOk = false

/-! ## Helper lemmas -/

/-- Truncating first commutes with cutting at the first comma: both orders
keep the first `min n (length of the comma-free head)` characters. -/
theorem takeWhile_take_comm {α : Type} (p : α → Bool) :
    ∀ (l : List α) (n : Nat), (l.take n).takeWhile p = (l.takeWhile p).take n := by
  intro l
  induction l with
  | nil => intro n; simp
  | cons a t ih =>
    intro n
    cases n with
    | zero => simp
    | succ m =>
      cases h : p a with
      | true => simp [List.takeWhile_cons, h, ih]
      | false => simp [List.takeWhile_cons, h]

/-! ## C9 -/

/-- C9: the image search query equals the text of `visual_prompt` before
its first comma, truncated to 60 characters (the source truncates first
and cuts at the comma second, which yields the same string), stripped of
surrounding whitespace and joined by a space with the state profile's
first-listed category. -/
theorem c9_image_query_shape (scene : Scene) (state : PhysioState) :
    buildQuery scene state = specSearchQuery scene state := by
  have h : (pySlice scene.visual_prompt 60).data.takeWhile (fun c => c != ',')
      = ((pyBeforeComma scene.visual_prompt).data.take 60) :=
    takeWhile_take_comm _ scene.visual_prompt.data 60
  unfold buildQuery specSearchQuery pyStrip pyBeforeComma pySlice at *
  rw [h]

/-! ## C4 -/

/-- C4: `fallback(topic, state)` always returns a 3-scene script titled
"Opening", "Journey", "Closing", 15 seconds per scene, total 45 seconds,
and is deterministic in everything but the supplied `video_id` (the
embedding is a total function, so the call never fails). -/
theorem c4_fallback_deterministic (topic : String) (state : PhysioState)
    (id1 id2 : String) :
    (ScriptGenerator.fallback topic state id1).scenes.length = 3
    ∧ (ScriptGenerator.fallback topic state id1).scenes.map Scene.title
        = ["Opening", "Journey", "Closing"]
    ∧ (ScriptGenerator.fallback topic state id1).scenes.map Scene.duration_s
        = [15, 15, 15]
    ∧ (ScriptGenerator.fallback topic state id1).total_s = 45
    ∧ (ScriptGenerator.fallback topic state id1).scenes
        = (ScriptGenerator.fallback topic state id2).scenes
    ∧ (ScriptGenerator.fallback topic state id1).title
        = (ScriptGenerator.fallback topic state id2).title
    ∧ (ScriptGenerator.fallback topic state id1).description
        = (ScriptGenerator.fallback topic state id2).description
    ∧ (ScriptGenerator.fallback topic state id1).category
        = (ScriptGenerator.fallback topic state id2).category
    ∧ (ScriptGenerator.fallback topic state id1).total_s
        = (ScriptGenerator.fallback topic state id2).total_s
    ∧ (ScriptGenerator.fallback topic state id1).video_id = id1 :=
  ⟨rfl, rfl, rfl, rfl, rfl, rfl, rfl, rfl, rfl, rfl⟩

/-! ## C5 -/

/-- C5: the procedural gradient's color selection is a function of the
scene's mood alone: mood "energetic" always writes the energetic color
pair, and a mood that is not a key of `MOOD_GRADIENTS` always writes the
neutral pair. -/
theorem c5_gradient_mood_colors (scene : Scene) (config : VideoConfig)
    (savePath : String) (fs : FS) :
    (scene.mood = "energetic" →
      (gradientFallback scene config savePath fs).2 savePath
        = some (.jpeg ((255, 160, 50), (200, 50, 30))
            config.width config.height scene.title))
    ∧ (MOOD_GRADIENTS.lookup scene.mood = none →
      (gradientFallback scene config savePath fs).2 savePath
        = some (.jpeg ((160, 160, 160), (80, 80, 80))
            config.width config.height scene.title)) := by
  constructor
  · intro h
    simp [gradientFallback, fsWrite, moodColors, h, MOOD_GRADIENTS]
    all_goals decide
  · intro h
    simp [gradientFallback, fsWrite, moodColors, h]

/-- Witness for C5 at concrete inputs: mood "energetic" and the
unrecognized mood "sparkly". -/
theorem c5_gradient_mood_colors_witness :
    MOOD_GRADIENTS.lookup "sparkly" = none
    ∧ (gradientFallback ⟨1, "T", "N", "V", 15, "energetic", "fade"⟩ {} "p"
        (fun _ => none)).2 "p"
        = some (.jpeg ((255, 160, 50), (200, 50, 30)) 1280 720 "T")
    ∧ (gradientFallback ⟨1, "T", "N", "V", 15, "sparkly", "fade"⟩ {} "p"
        (fun _ => none)).2 "p"
        = some (.jpeg ((160, 160, 160), (80, 80, 80)) 1280 720 "T") :=
  ⟨by decide,
   (c5_gradient_mood_colors ⟨1, "T", "N", "V", 15, "energetic", "fade"⟩ {} "p"
      (fun _ => none)).1 rfl,
   (c5_gradient_mood_colors ⟨1, "T", "N", "V", 15, "sparkly", "fade"⟩ {} "p"
      (fun _ => none)).2 (by decide)⟩

/-! ## C8 -/

/-- C8: cleanup is idempotent: after one cleanup for a `video_id`, a
second cleanup for the same `video_id` matches no file, removes nothing,
and leaves the temp directory unchanged (the embedding is total: the
second call cannot fail). -/
theorem c8_cleanup_idempotent (video_id : String) (files : List String) :
    cleanup video_id (cleanup video_id files).1
      = ((cleanup video_id files).1, 0) := by
  simp [cleanup, List.filter_filter]

/-! ## C6 -/

/-- C6: the narration producer never propagates an exception: for every
environment it returns either the destination path or the `None`
sentinel; the sentinel is returned whenever gtts is unavailable or the
synthesis call raises. -/
theorem c6_voice_no_raise (env : VoiceEnv) (text : String)
    (state : PhysioState) (savePath : String) (fs : FS) :
    ((VoiceGenerator.generate env text state savePath fs).1 = some savePath
      ∨ (VoiceGenerator.generate env text state savePath fs).1 = none)
    ∧ (env.hasGtts = false →
        (VoiceGenerator.generate env text state savePath fs).1 = none)
    ∧ (env.ttsSave = .exn →
        (VoiceGenerator.generate env text state savePath fs).1 = none) := by
  rcases env with ⟨hg, ts⟩
  cases hg <;> cases ts <;> simp [VoiceGenerator.generate]

/-- Witness for C6: a simulated synthesis failure yields the sentinel. -/
theorem c6_voice_no_raise_witness :
    (VoiceGenerator.generate ⟨true, .exn⟩ "hello" .calm "a.mp3"
        (fun _ => none)).1 = none :=
  (c6_voice_no_raise ⟨true, .exn⟩ "hello" .calm "a.mp3" (fun _ => none)).2.2 rfl

/-! ## C7 -/

/-- C7: `run_batch` returns exactly one entry per job in job order; a
job whose run raises becomes a failed entry carrying the error message,
and every other job's entry is unaffected (each entry depends only on
its own job's outcome, so no failure aborts the batch). -/
theorem c7_run_batch_isolation (α : Type) (run : Job → Except String α)
    (jobs : List Job) :
    (runBatch run jobs).length = jobs.length
    ∧ ∀ (i : Nat) (hi : i < jobs.length)
        (hr : i < (runBatch run jobs).length),
        (runBatch run jobs).get ⟨i, hr⟩
          = match run (jobs.get ⟨i, hi⟩) with
            | .ok r => .ok r
            | .error e => .failed e (jobs.get ⟨i, hi⟩) := by
  constructor
  · simp [runBatch]
  · intro i hi hr
    simp [runBatch]

/-- Witness for C7: a 2-job batch whose second job raises has 2 entries,
with the second recorded as failed with the raised message. -/
theorem c7_run_batch_isolation_witness :
    (runBatch (fun j => if j.topic = "b" then Except.error "boom"
        else Except.ok (1 : Nat)) [⟨"a", .calm⟩, ⟨"b", .focus⟩]).length = 2
    ∧ (runBatch (fun j => if j.topic = "b" then Except.error "boom"
        else Except.ok (1 : Nat)) [⟨"a", .calm⟩, ⟨"b", .focus⟩]).get
          ⟨1, by decide⟩ = .failed "boom" ⟨"b", .focus⟩ := by
  constructor
  · exact (c7_run_batch_isolation Nat
      (fun j => if j.topic = "b" then Except.error "boom" else Except.ok (1 : Nat))
      [⟨"a", .calm⟩, ⟨"b", .focus⟩]).1.trans rfl
  · have h := (c7_run_batch_isolation Nat
      (fun j => if j.topic = "b" then Except.error "boom" else Except.ok (1 : Nat))
      [⟨"a", .calm⟩, ⟨"b", .focus⟩]).2 1 (by decide) (by decide)
    exact h.trans (by decide)

/-! ## C1 -/

/-- When an Unsplash attempt is accepted, it returns the destination path
and has written the oversized payload there. -/
theorem unsplashAttempt_spec (a : PyOutcome HttpResp) (sp : String) (fs : FS)
    (p : String) (fs2 : FS) (h : unsplashAttempt a sp fs = some (p, fs2)) :
    p = sp ∧ ∃ n, fs2 sp = some (.bytes n) ∧ n ≠ 0 := by
  rcases a with _ | r
  · simp [unsplashAttempt] at h
  · simp only [unsplashAttempt] at h
    by_cases hc : (r.status == 200 && decide (r.content > 8000)) = true
    · rw [if_pos hc] at h
      rw [Bool.and_eq_true] at hc
      have hgt : r.content > 8000 := of_decide_eq_true hc.2
      obtain ⟨hp, hfs⟩ := Prod.mk.injEq .. ▸ Option.some.injEq .. ▸ h
      refine ⟨hp.symm, r.content, ?_, by omega⟩
      rw [← hfs]
      simp [fsWrite]
    · rw [if_neg hc] at h
      exact absurd h (by simp)

/-- C1: the asset resolver is total: for every environment of provider
outcomes (any subset failing), every scene, state, config and destination,
`fetch` returns the destination path and the file system afterwards holds
a non-empty file there — the unconditional gradient fallback guarantees
this, and every provider exception is swallowed, so the embedding is a
total function. -/
theorem c1_image_fetch_total (env : UnsplashEnv) (scene : Scene)
    (state : PhysioState) (config : VideoConfig) (savePath : String)
    (fs : FS) :
    (imageFetch env scene state config savePath fs).path = savePath
    ∧ ∃ fd, (imageFetch env scene state config savePath fs).fs savePath
          = some fd
        ∧ fd.nonempty = true := by
  rcases h1 : unsplashAttempt env.attempt1 savePath fs with _ | ⟨p1, fsa⟩
  · rcases h2 : unsplashAttempt env.attempt2 savePath fs with _ | ⟨p2, fsb⟩
    · refine ⟨by simp [imageFetch, h1, h2, gradientFallback],
        ⟨.jpeg (moodColors scene.mood) config.width config.height scene.title,
          ?_, rfl⟩⟩
      simp [imageFetch, h1, h2, gradientFallback, fsWrite]
    · obtain ⟨hp, n, hf, hn⟩ := unsplashAttempt_spec _ _ _ _ _ h2
      subst hp
      refine ⟨by simp [imageFetch, h1, h2], ⟨.bytes n, ?_, ?_⟩⟩
      · simpa [imageFetch, h1, h2] using hf
      · simp [FileData.nonempty, hn]
  · obtain ⟨hp, n, hf, hn⟩ := unsplashAttempt_spec _ _ _ _ _ h1
    subst hp
    refine ⟨by simp [imageFetch, h1], ⟨.bytes n, ?_, ?_⟩⟩
    · simpa [imageFetch, h1] using hf
    · simp [FileData.nonempty, hn]

/-! ## C2 -/

/-- A Pexels acceptance implies its key was truthy (it is checked before
any contact). -/
theorem tryPexels_key_of_some (env : PexelsEnv) (sp : String) (fs : FS)
    (v : String × FS) (h : tryPexelsVideo env sp fs = some v) :
    pyTruthy env.key = true := by
  cases hk : pyTruthy env.key
  · rw [tryPexelsVideo, hk] at h
    simp at h
  · rfl

/-- A Pixabay acceptance implies its key was truthy. -/
theorem tryPixabay_key_of_some (env : PixabayEnv) (sp : String) (fs : FS)
    (v : String × FS) (h : tryPixabayVideo env sp fs = some v) :
    pyTruthy env.key = true := by
  cases hk : pyTruthy env.key
  · rw [tryPixabayVideo, hk] at h
    simp at h
  · rfl

/-- A falsy Pexels key means an immediate skip. -/
theorem tryPexels_skip (env : PexelsEnv) (sp : String) (fs : FS)
    (hk : pyTruthy env.key = false) : tryPexelsVideo env sp fs = none := by
  rw [tryPexelsVideo, hk]
  rfl

/-- A falsy Pixabay key means an immediate skip. -/
theorem tryPixabay_skip (env : PixabayEnv) (sp : String) (fs : FS)
    (hk : pyTruthy env.key = false) : tryPixabayVideo env sp fs = none := by
  rw [tryPixabayVideo, hk]
  rfl

/-- C2, corrected: the claimed order (image search first) is false on the
code; `fetch_video` consults the providers in the order Pexels video,
Pixabay video, image search (two URL variants), gradient — skipping
key-less video providers without contact and stopping at the first
acceptance, after which no later provider of the chain is contacted. -/
theorem c2_provider_chain_order (env : VideoFetchEnv) (scene : Scene)
    (state : PhysioState) (config : VideoConfig) (savePath : String)
    (fs : FS) :
    (fetchVideo env scene state config savePath fs).trace
      = chainContacts env savePath fs codeChain := by
  rcases tp : tryPexelsVideo env.pexels savePath fs with _ | ⟨pp, pfs⟩
  · rcases tb : tryPixabayVideo env.pixabay savePath fs with _ | ⟨bp, bfs⟩
    · rcases u1 : unsplashAttempt env.unsplash.attempt1 savePath fs with _ | ⟨q1, qf1⟩
      · rcases u2 : unsplashAttempt env.unsplash.attempt2 savePath fs with _ | ⟨q2, qf2⟩
        · cases kp : pyTruthy env.pexels.key <;> cases kb : pyTruthy env.pixabay.key <;>
            simp [fetchVideo, chainContacts, codeChain, providerSkipped,
              providerAccepts, cutAtAccept, imageFetch, List.filter_cons,
              tp, tb, u1, u2, kp, kb]
        · cases kp : pyTruthy env.pexels.key <;> cases kb : pyTruthy env.pixabay.key <;>
            simp [fetchVideo, chainContacts, codeChain, providerSkipped,
              providerAccepts, cutAtAccept, imageFetch, List.filter_cons,
              tp, tb, u1, u2, kp, kb]
      · cases kp : pyTruthy env.pexels.key <;> cases kb : pyTruthy env.pixabay.key <;>
          simp [fetchVideo, chainContacts, codeChain, providerSkipped,
            providerAccepts, cutAtAccept, imageFetch, List.filter_cons,
            tp, tb, u1, kp, kb]
    · have kb := tryPixabay_key_of_some _ _ _ _ tb
      cases kp : pyTruthy env.pexels.key <;>
        simp [fetchVideo, chainContacts, codeChain, providerSkipped,
          providerAccepts, cutAtAccept, List.filter_cons, tp, tb, kp, kb]
  · have kp := tryPexels_key_of_some _ _ _ _ tp
    simp [fetchVideo, chainContacts, codeChain, providerSkipped,
      providerAccepts, cutAtAccept, List.filter_cons, tp, kp]

/-- Counterexample refuting C2 as stated: with every provider willing to
accept, the code contacts the Pexels video provider first and returns its
`.mp4` path, not the image-search result at the destination. -/
theorem c2_provider_order_counterexample : ¬ claimC2Prop := by
  intro hcl
  have h := hcl
    { pexels :=
        { key := some "k"
          search := .ok (200,
            [{ duration := 10
               video_files := [{ file_type := "video/mp4", quality := "hd", link := "u" }] }])
          download := fun _ => .ok ⟨200, 5⟩ }
      pixabay := { key := none, search := .exn, download := fun _ => .exn }
      unsplash := { attempt1 := .ok ⟨200, 9000⟩, attempt2 := .exn } }
    ⟨1, "T", "N", "V", 15, "serene", "fade"⟩ .calm {} "a.jpg" (fun _ => none)
    (by decide)
  exact absurd h.1 (by decide)

/-! ## C10 -/

/-- Replacing ".jpg" by ".mp4" in any string that ends in ".jpg" yields a
string ending in ".mp4". -/
theorem replace_append_jpg (m : List Char) :
    ∃ m2, replaceJpgMp4 (m ++ ('.' :: 'j' :: 'p' :: 'g' :: []))
      = m2 ++ ('.' :: 'm' :: 'p' :: '4' :: []) := by
  have main : ∀ (n : Nat) (m : List Char), m.length ≤ n →
      ∃ m2, replaceJpgMp4 (m ++ ('.' :: 'j' :: 'p' :: 'g' :: []))
        = m2 ++ ('.' :: 'm' :: 'p' :: '4' :: []) := by
    intro n
    induction n with
    | zero =>
      intro m hm
      obtain rfl := List.eq_nil_of_length_eq_zero (Nat.le_zero.mp hm)
      exact ⟨[], by decide⟩
    | succ n ih =>
      intro m hm
      rcases m with _ | ⟨a, _ | ⟨b, _ | ⟨c, _ | ⟨d, tl⟩⟩⟩⟩
      · exact ⟨[], by decide⟩
      · exact ⟨[a], by simp [replaceJpgMp4]⟩
      · exact ⟨[a, b], by simp [replaceJpgMp4]⟩
      · exact ⟨[a, b, c], by simp [replaceJpgMp4]⟩
      · have u1 : replaceJpgMp4 ((a :: b :: c :: d :: tl) ++ ('.' :: 'j' :: 'p' :: 'g' :: []))
            = if a = '.' ∧ b = 'j' ∧ c = 'p' ∧ d = 'g'
              then '.' :: 'm' :: 'p' :: '4'
                  :: replaceJpgMp4 (tl ++ ('.' :: 'j' :: 'p' :: 'g' :: []))
              else a :: replaceJpgMp4 ((b :: c :: d :: tl)
                  ++ ('.' :: 'j' :: 'p' :: 'g' :: [])) := rfl
        by_cases hc : a = '.' ∧ b = 'j' ∧ c = 'p' ∧ d = 'g'
        · obtain ⟨m2, h2⟩ := ih tl (by simp at hm; omega)
          refine ⟨'.' :: 'm' :: 'p' :: '4' :: m2, ?_⟩
          rw [u1, if_pos hc, h2]
          simp
        · obtain ⟨m2, h2⟩ := ih (b :: c :: d :: tl) (by simp at hm ⊢; omega)
          refine ⟨a :: m2, ?_⟩
          rw [u1, if_neg hc, h2]
          simp
  exact main m.length m le_rfl

/-- `endsWithL` is list-suffix. -/
theorem endsWithL_iff (suf l : List Char) :
    endsWithL suf l = true ↔ suf <:+ l := by
  rw [endsWithL, List.isPrefixOf_iff_prefix, List.reverse_prefix]

/-- Two suffixes of one list with equal lengths are equal. -/
theorem suffix_eq_of_length {s t l : List Char} (hs : s <:+ l) (ht : t <:+ l)
    (hlen : s.length = t.length) : s = t := by
  obtain ⟨u, rfl⟩ := hs
  obtain ⟨v, hv⟩ := ht
  have hl : v.length = u.length := by
    have h := congrArg List.length hv
    simp only [List.length_append] at h
    omega
  exact ((List.append_inj hv hl).2).symm

/-- Every `some` result of the Pexels provider carries the
`.jpg`→`.mp4` path. -/
theorem tryPexels_path (env : PexelsEnv) (sp : String) (fs : FS)
    (p : String) (f : FS) (h : tryPexelsVideo env sp fs = some (p, f)) :
    p = jpgToMp4 sp := by
  unfold tryPexelsVideo at h
  repeat' split at h
  all_goals simp_all

/-- Every `some` result of the Pixabay provider carries the
`.jpg`→`.mp4` path. -/
theorem tryPixabay_path (env : PixabayEnv) (sp : String) (fs : FS)
    (p : String) (f : FS) (h : tryPixabayVideo env sp fs = some (p, f)) :
    p = jpgToMp4 sp := by
  unfold tryPixabayVideo at h
  repeat' split at h
  all_goals simp_all

/-- The image fetcher always returns the destination path. -/
theorem imageFetch_path (env : UnsplashEnv) (scene : Scene)
    (state : PhysioState) (config : VideoConfig) (sp : String) (fs : FS) :
    (imageFetch env scene state config sp fs).path = sp := by
  rcases h1 : unsplashAttempt env.attempt1 sp fs with _ | ⟨p1, f1⟩
  · rcases h2 : unsplashAttempt env.attempt2 sp fs with _ | ⟨p2, f2⟩
    · simp [imageFetch, h1, h2, gradientFallback]
    · have hp := (unsplashAttempt_spec _ _ _ _ _ h2).1
      simp [imageFetch, h1, h2, hp]
  · have hp := (unsplashAttempt_spec _ _ _ _ _ h1).1
    simp [imageFetch, h1, hp]

/-- A path ending in ".jpg" is classified as an image by the enhanced
assembler's extension branch. -/
theorem not_video_of_jpg (sp : String)
    (h : endsWithL ('.' :: 'j' :: 'p' :: 'g' :: []) sp.data = true) :
    isVideoMediaPath sp = false := by
  obtain ⟨m, hm⟩ := (endsWithL_iff _ _).mp h
  have hlow : (pyLower sp).data
      = m.map Char.toLower ++ ('.' :: 'j' :: 'p' :: 'g' :: []) := by
    show sp.data.map Char.toLower = _
    rw [← hm, List.map_append]
    congr 1
  have hjpg : ('.' :: 'j' :: 'p' :: 'g' :: []) <:+ (pyLower sp).data :=
    ⟨m.map Char.toLower, hlow.symm⟩
  rw [isVideoMediaPath]
  have gen : ∀ (suf : List Char), suf.length = 4 →
      suf ≠ ('.' :: 'j' :: 'p' :: 'g' :: []) →
      endsWithL suf (pyLower sp).data = false := by
    intro suf hl hne
    cases he : endsWithL suf (pyLower sp).data
    · rfl
    · exact absurd (suffix_eq_of_length ((endsWithL_iff _ _).mp he) hjpg hl) hne
  rw [gen _ (by decide) (by decide), gen _ (by decide) (by decide),
    gen _ (by decide) (by decide)]
  rfl

/-- The `.jpg`→`.mp4` path of a ".jpg" destination is classified as video
by the enhanced assembler's extension branch. -/
theorem video_of_mp4 (sp : String)
    (h : endsWithL ('.' :: 'j' :: 'p' :: 'g' :: []) sp.data = true) :
    isVideoMediaPath (jpgToMp4 sp) = true := by
  obtain ⟨m, hm⟩ := (endsWithL_iff _ _).mp h
  obtain ⟨m2, h2⟩ := replace_append_jpg m
  have hdata : (jpgToMp4 sp).data = m2 ++ ('.' :: 'm' :: 'p' :: '4' :: []) := by
    show replaceJpgMp4 sp.data = _
    rw [← hm, h2]
  have hlow : (pyLower (jpgToMp4 sp)).data
      = m2.map Char.toLower ++ ('.' :: 'm' :: 'p' :: '4' :: []) := by
    show (jpgToMp4 sp).data.map Char.toLower = _
    rw [hdata, List.map_append]
    congr 1
  have hend : endsWithL ('.' :: 'm' :: 'p' :: '4' :: [])
      (pyLower (jpgToMp4 sp)).data = true :=
    (endsWithL_iff _ _).mpr ⟨m2.map Char.toLower, hlow.symm⟩
  rw [isVideoMediaPath, hend]
  rfl

/-- C10, corrected: for a ".jpg" destination, the returned path is the
destination itself exactly when no video provider download succeeded (and
the assembler classifies it as an image), and otherwise it is the
destination with every occurrence of ".jpg" replaced by ".mp4" — Python's
`replace` substitutes all occurrences, not only the suffix — which the
assembler classifies as video. -/
theorem c10_media_path_shape (env : VideoFetchEnv) (scene : Scene)
    (state : PhysioState) (config : VideoConfig) (savePath : String)
    (fs : FS)
    (h : endsWithL ('.' :: 'j' :: 'p' :: 'g' :: []) savePath.data = true) :
    (videoProviderAccepted env savePath fs = true →
      (fetchVideo env scene state config savePath fs).path = jpgToMp4 savePath
      ∧ isVideoMediaPath (fetchVideo env scene state config savePath fs).path
          = true)
    ∧ (videoProviderAccepted env savePath fs = false →
      (fetchVideo env scene state config savePath fs).path = savePath
      ∧ isVideoMediaPath (fetchVideo env scene state config savePath fs).path
          = false) := by
  rcases tp : tryPexelsVideo env.pexels savePath fs with _ | ⟨pp, pfs⟩
  · rcases tb : tryPixabayVideo env.pixabay savePath fs with _ | ⟨bp, bfs⟩
    · have hpath : (fetchVideo env scene state config savePath fs).path
          = savePath := by
        simp [fetchVideo, tp, tb, imageFetch_path]
      constructor
      · intro hv
        rw [videoProviderAccepted, tp, tb] at hv
        simp at hv
      · intro _
        exact ⟨hpath, by rw [hpath]; exact not_video_of_jpg savePath h⟩
    · have hbp := tryPixabay_path _ _ _ _ _ tb
      have hpath : (fetchVideo env scene state config savePath fs).path
          = jpgToMp4 savePath := by
        simp [fetchVideo, tp, tb, hbp]
      constructor
      · intro _
        exact ⟨hpath, by rw [hpath]; exact video_of_mp4 savePath h⟩
      · intro hv
        rw [videoProviderAccepted, tp, tb] at hv
        simp at hv
  · have hpp := tryPexels_path _ _ _ _ _ tp
    have hpath : (fetchVideo env scene state config savePath fs).path
        = jpgToMp4 savePath := by
      simp [fetchVideo, tp, hpp]
    constructor
    · intro _
      exact ⟨hpath, by rw [hpath]; exact video_of_mp4 savePath h⟩
    · intro hv
      rw [videoProviderAccepted, tp] at hv
      simp at hv

/-- Witness for C10 at concrete inputs: a succeeding Pexels download
yields the `.mp4` path (classified as video), and an all-failing
environment yields the ".jpg" destination (classified as image). -/
theorem c10_media_path_shape_witness :
    ((fetchVideo
      { pexels :=
          { key := some "k"
            search := .ok (200,
              [{ duration := 10
                 video_files := [{ file_type := "video/mp4", quality := "hd", link := "u" }] }])
            download := fun _ => .ok ⟨200, 5⟩ }
        pixabay := { key := none, search := .exn, download := fun _ => .exn }
        unsplash := { attempt1 := .exn, attempt2 := .exn } }
      ⟨1, "T", "N", "V", 15, "serene", "fade"⟩ .calm {} "a.jpg"
      (fun _ => none)).path = "a.mp4")
    ∧ ((fetchVideo
      { pexels := { key := none, search := .exn, download := fun _ => .exn }
        pixabay := { key := none, search := .exn, download := fun _ => .exn }
        unsplash := { attempt1 := .exn, attempt2 := .exn } }
      ⟨1, "T", "N", "V", 15, "serene", "fade"⟩ .calm {} "a.jpg"
      (fun _ => none)).path = "a.jpg") := by
  constructor
  · have h := (c10_media_path_shape
      { pexels :=
          { key := some "k"
            search := .ok (200,
              [{ duration := 10
                 video_files := [{ file_type := "video/mp4", quality := "hd", link := "u" }] }])
            download := fun _ => .ok ⟨200, 5⟩ }
        pixabay := { key := none, search := .exn, download := fun _ => .exn }
        unsplash := { attempt1 := .exn, attempt2 := .exn } }
      ⟨1, "T", "N", "V", 15, "serene", "fade"⟩ .calm {} "a.jpg"
      (fun _ => none) (by decide)).1 (by decide)
    exact h.1.trans (by decide)
  · have h := (c10_media_path_shape
      { pexels := { key := none, search := .exn, download := fun _ => .exn }
        pixabay := { key := none, search := .exn, download := fun _ => .exn }
        unsplash := { attempt1 := .exn, attempt2 := .exn } }
      ⟨1, "T", "N", "V", 15, "serene", "fade"⟩ .calm {} "a.jpg"
      (fun _ => none) (by decide)).2 (by decide)
    exact h.1

/-- Counterexample refuting C10 as stated: at the destination ".jpg.jpg"
with a succeeding video provider, the returned path is ".mp4.mp4" (every
occurrence replaced), which is neither the destination nor the
destination with only its ".jpg" suffix replaced. -/
theorem c10_suffix_counterexample : ¬ claimC10Prop := by
  intro hcl
  have h := hcl
    { pexels :=
        { key := some "k"
          search := .ok (200,
            [{ duration := 10
               video_files := [{ file_type := "video/mp4", quality := "hd", link := "u" }] }])
          download := fun _ => .ok ⟨200, 5⟩ }
      pixabay := { key := none, search := .exn, download := fun _ => .exn }
      unsplash := { attempt1 := .exn, attempt2 := .exn } }
    ⟨1, "T", "N", "V", 15, "serene", "fade"⟩ .calm {} ".jpg.jpg"
    (fun _ => none) (by decide)
  rcases h with h | h
  · exact absurd h (by decide)
  · exact absurd h (by decide)

/-! ## C3 -/

/-- One scene-entry parse succeeds exactly when the entry is a dict with
all four required keys. -/
theorem parseSceneItem_ok_iff (s : Json) (d : Json) :
    (parseSceneItem s d).isOk = true ↔ sceneItemRequired s = true := by
  cases s with
  | null => simp [parseSceneItem, sceneItemRequired, Json.getItem, Except.isOk, Except.toBool]
  | bool b => simp [parseSceneItem, sceneItemRequired, Json.getItem, Except.isOk, Except.toBool]
  | num n => simp [parseSceneItem, sceneItemRequired, Json.getItem, Except.isOk, Except.toBool]
  | str t => simp [parseSceneItem, sceneItemRequired, Json.getItem, Except.isOk, Except.toBool]
  | arr items => simp [parseSceneItem, sceneItemRequired, Json.getItem, Except.isOk, Except.toBool]
  | obj entries =>
    cases h1 : entries.lookup "scene_id" <;>
      cases h2 : entries.lookup "title" <;>
        cases h3 : entries.lookup "narration" <;>
          cases h4 : entries.lookup "visual_prompt" <;>
            simp [parseSceneItem, sceneItemRequired, Json.getItem, Except.isOk, Except.toBool,
              h1, h2, h3, h4]

/-- A successfully parsed scene entry holds the `.get` fields with their
documented defaults. -/
theorem parseSceneItem_fields (s d : Json) (r : RawScene)
    (h : parseSceneItem s d = .ok r) :
    r.duration_s = s.pyGet "duration_s" d
    ∧ r.mood = s.pyGet "mood" (.str "neutral")
    ∧ r.transition = s.pyGet "transition" (.str "fade") := by
  cases s with
  | null => simp [parseSceneItem, Json.getItem] at h
  | bool b => simp [parseSceneItem, Json.getItem] at h
  | num n => simp [parseSceneItem, Json.getItem] at h
  | str t => simp [parseSceneItem, Json.getItem] at h
  | arr items => simp [parseSceneItem, Json.getItem] at h
  | obj entries =>
    simp only [parseSceneItem, Json.getItem] at h
    repeat' split at h
    all_goals
      first
      | exact Except.noConfusion h
      | (injection h with h2; subst h2; exact ⟨rfl, rfl, rfl⟩)

/-- The scene comprehension succeeds exactly when every entry supplies
the required keys. -/
theorem parseScenes_ok_iff (items : List Json) (d : Json) :
    (parseScenes items d).isOk = true
      ↔ items.all sceneItemRequired = true := by
  induction items with
  | nil => simp [parseScenes, Except.isOk, Except.toBool]
  | cons s rest ih =>
    cases hi : parseSceneItem s d with
    | error e =>
      cases hreq : sceneItemRequired s with
      | true =>
        exact absurd ((parseSceneItem_ok_iff s d).mpr hreq)
          (by rw [hi]; simp [Except.isOk, Except.toBool])
      | false => simp [parseScenes, hi, hreq, Except.isOk, Except.toBool]
    | ok r =>
      have hreq : sceneItemRequired s = true :=
        (parseSceneItem_ok_iff s d).mp (by rw [hi]; rfl)
      cases hr : parseScenes rest d with
      | error e2 =>
        cases hall : rest.all sceneItemRequired with
        | true => exact absurd (ih.mpr hall) (by rw [hr]; simp [Except.isOk, Except.toBool])
        | false => simp [parseScenes, hi, hr, hreq, hall, Except.isOk, Except.toBool]
      | ok rs =>
        have hall : rest.all sceneItemRequired = true := ih.mp (by rw [hr]; rfl)
        simp [parseScenes, hi, hr, hreq, hall, Except.isOk, Except.toBool]

/-- A successful scene comprehension is index-wise: one output scene per
input entry, each carrying its own entry's fields and defaults. -/
theorem parseScenes_spec (items : List Json) (d : Json) (l : List RawScene)
    (h : parseScenes items d = .ok l) :
    l.length = items.length
    ∧ ∀ (i : Nat) (h1 : i < items.length) (h2 : i < l.length),
        (l.get ⟨i, h2⟩).duration_s = (items.get ⟨i, h1⟩).pyGet "duration_s" d
        ∧ (l.get ⟨i, h2⟩).mood = (items.get ⟨i, h1⟩).pyGet "mood" (.str "neutral")
        ∧ (l.get ⟨i, h2⟩).transition
            = (items.get ⟨i, h1⟩).pyGet "transition" (.str "fade") := by
  induction items generalizing l with
  | nil =>
    simp only [parseScenes] at h
    injection h with h2
    subst h2
    exact ⟨rfl, fun i h1 _ => absurd h1 (by simp)⟩
  | cons s rest ih =>
    simp only [parseScenes] at h
    cases hi : parseSceneItem s d with
    | error e => rw [hi] at h; exact Except.noConfusion h
    | ok r =>
      rw [hi] at h
      cases hr : parseScenes rest d with
      | error e2 => rw [hr] at h; exact Except.noConfusion h
      | ok rs =>
        rw [hr] at h
        injection h with h2
        subst h2
        obtain ⟨hlen, hidx⟩ := ih rs hr
        obtain ⟨hd, hm, ht⟩ := parseSceneItem_fields s d r hi
        refine ⟨by simp [hlen], ?_⟩
        intro i h1 h2
        cases i with
        | zero => exact ⟨hd, hm, ht⟩
        | succ j =>
          have hj1 : j < rest.length := by simpa using h1
          have hj2 : j < rs.length := by simpa using h2
          exact hidx j hj1 hj2

/-- `scenesValueOk` says exactly that the Python iteration of the
`"scenes"` value succeeds and every yielded entry is well-formed. -/
theorem scenesValueOk_iff (v : Json) :
    scenesValueOk v = true
      ↔ ∃ items, v.pyIterate = .ok items
          ∧ items.all sceneItemRequired = true := by
  cases v with
  | null => simp [scenesValueOk, Json.pyIterate]
  | bool b => simp [scenesValueOk, Json.pyIterate]
  | num n => simp [scenesValueOk, Json.pyIterate]
  | arr items => simp [scenesValueOk, Json.pyIterate]
  | str s =>
    rcases s with ⟨sd⟩
    cases sd with
    | nil => simp [scenesValueOk, Json.pyIterate]
    | cons c tl => simp [scenesValueOk, Json.pyIterate, sceneItemRequired]
  | obj entries =>
    cases entries with
    | nil => simp [scenesValueOk, Json.pyIterate]
    | cons kv tl => simp [scenesValueOk, Json.pyIterate, sceneItemRequired]

/-- `responseOk` says exactly that reading `data["scenes"]` succeeds and
the value passes `scenesValueOk`. -/
theorem responseOk_iff (data : Json) :
    responseOk data = true
      ↔ ∃ v, data.getItem "scenes" = .ok v ∧ scenesValueOk v = true := by
  cases data with
  | null => simp [responseOk, Json.getItem]
  | bool b => simp [responseOk, Json.getItem]
  | num n => simp [responseOk, Json.getItem]
  | str s => simp [responseOk, Json.getItem]
  | arr items => simp [responseOk, Json.getItem]
  | obj entries =>
    cases h : entries.lookup "scenes" with
    | none => simp [responseOk, Json.getItem, h]
    | some v => simp [responseOk, Json.getItem, h]

/-- C3, corrected: parsing fails exactly when the JSON is invalid, the
decoded value is not a dict holding a "scenes" key, its "scenes" value
cannot be iterated into well-formed scene entries (each a dict with
scene_id, title, narration, visual_prompt), and — the defaults part of
the claim, which holds — a successful parse yields one scene per entry
whose absent duration_s, mood, transition fields default to the even
split of the total duration, "neutral" and "fade". -/
theorem c3_parse_characterization (loads : String → Option Json)
    (raw topic : String) (state : PhysioState) (category : String)
    (total_s : Nat) (video_id : String) :
    ((ScriptGenerator.parse loads raw topic state category total_s
        video_id).isOk = true
      ↔ ∃ data, loads (stripFences raw) = some data ∧ responseOk data = true)
    ∧ (∀ (data : Json) (items : List Json) (sc : RawScript),
        loads (stripFences raw) = some data →
        data.getItem "scenes" = .ok (Json.arr items) →
        ScriptGenerator.parse loads raw topic state category total_s
          video_id = .ok sc →
        sc.scenes.length = items.length
        ∧ ∀ (i : Nat) (h1 : i < items.length) (h2 : i < sc.scenes.length),
            (sc.scenes.get ⟨i, h2⟩).duration_s
              = (items.get ⟨i, h1⟩).pyGet "duration_s"
                  (Json.num (Int.ofNat (total_s / max items.length 1)))
            ∧ (sc.scenes.get ⟨i, h2⟩).mood
              = (items.get ⟨i, h1⟩).pyGet "mood" (Json.str "neutral")
            ∧ (sc.scenes.get ⟨i, h2⟩).transition
              = (items.get ⟨i, h1⟩).pyGet "transition" (Json.str "fade")) := by
  constructor
  · cases hload : loads (stripFences raw) with
    | none => simp [ScriptGenerator.parse, hload, Except.isOk, Except.toBool]
    | some data =>
      cases hs : data.getItem "scenes" with
      | error e =>
        simp only [ScriptGenerator.parse, hload, hs, Except.isOk, Except.toBool]
        constructor
        · intro hf; exact absurd hf (by simp)
        · rintro ⟨d2, hd2, hok⟩
          obtain rfl : data = d2 := Option.some.inj hd2
          obtain ⟨v, hv, _⟩ := (responseOk_iff data).mp hok
          rw [hs] at hv
          exact Except.noConfusion hv
      | ok v =>
        cases hit : v.pyIterate with
        | error e =>
          simp only [ScriptGenerator.parse, hload, hs, hit, Except.isOk, Except.toBool]
          constructor
          · intro hf; exact absurd hf (by simp)
          · rintro ⟨d2, hd2, hok⟩
            obtain rfl : data = d2 := Option.some.inj hd2
            obtain ⟨v2, hv2, hsv⟩ := (responseOk_iff data).mp hok
            rw [hs] at hv2
            injection hv2 with hv2e
            rw [← hv2e] at hsv
            obtain ⟨items2, hit2, _⟩ := (scenesValueOk_iff v).mp hsv
            rw [hit] at hit2
            exact Except.noConfusion hit2
        | ok items =>
          cases hp : parseScenes items
              (.num (Int.ofNat (total_s / max items.length 1))) with
          | error e =>
            simp only [ScriptGenerator.parse, hload, hs, hit, hp, Except.isOk, Except.toBool]
            constructor
            · intro hf; exact absurd hf (by simp)
            · rintro ⟨d2, hd2, hok⟩
              obtain rfl : data = d2 := Option.some.inj hd2
              obtain ⟨v2, hv2, hsv⟩ := (responseOk_iff data).mp hok
              rw [hs] at hv2
              injection hv2 with hv2e
              rw [← hv2e] at hsv
              obtain ⟨items2, hit2, hall⟩ := (scenesValueOk_iff v).mp hsv
              rw [hit] at hit2
              injection hit2 with hit2e
              rw [← hit2e] at hall
              have hok2 := (parseScenes_ok_iff items
                (.num (Int.ofNat (total_s / max items.length 1)))).mpr hall
              rw [hp] at hok2
              simp [Except.isOk, Except.toBool] at hok2
          | ok scenes =>
            simp only [ScriptGenerator.parse, hload, hs, hit, hp, Except.isOk, Except.toBool]
            constructor
            · intro _
              refine ⟨data, rfl, ?_⟩
              rw [responseOk_iff]
              refine ⟨v, hs, ?_⟩
              rw [scenesValueOk_iff]
              exact ⟨items, hit,
                (parseScenes_ok_iff items _).mp (by rw [hp]; rfl)⟩
            · intro _; trivial
  · intro data items sc hload hs hok
    simp only [ScriptGenerator.parse, hload, hs, Json.pyIterate] at hok
    cases hp : parseScenes items
        (.num (Int.ofNat (total_s / max items.length 1))) with
    | error e => rw [hp] at hok; exact Except.noConfusion hok
    | ok scenes =>
      rw [hp] at hok
      injection hok with he
      subst he
      obtain ⟨hlen, hidx⟩ := parseScenes_spec items _ scenes hp
      exact ⟨hlen, fun i h1 h2 => hidx i h1 h2⟩

/-- Witness for C3 at a concrete well-formed response: parsing succeeds
and the single scene receives the defaulted duration 45 // 1, mood
"neutral" and transition "fade". -/
theorem c3_parse_characterization_witness :
    (ScriptGenerator.parse sampleLoads "r" "t" .calm "c" 45 "id").isOk = true
    ∧ sampleParsed.scenes.length = 1
    ∧ (sampleParsed.scenes.get ⟨0, by decide⟩).duration_s = Json.num 45
    ∧ (sampleParsed.scenes.get ⟨0, by decide⟩).mood = Json.str "neutral"
    ∧ (sampleParsed.scenes.get ⟨0, by decide⟩).transition = Json.str "fade" := by
  have h := c3_parse_characterization sampleLoads "r" "t" .calm "c" 45 "id"
  have h2 := h.2 sampleResponse [sampleSceneJson] sampleParsed rfl rfl rfl
  have h3 := h2.2 0 (by decide) (by decide)
  exact ⟨h.1.mpr ⟨sampleResponse, rfl, rfl⟩, h2.1.trans rfl,
    h3.1.trans rfl, h3.2.1.trans rfl, h3.2.2.trans rfl⟩

/-- Counterexample refuting C3 as stated: the response decoding to
`{"scenes": [{}]}` is valid JSON with a "scenes" key, yet the parse
raises (KeyError on the scene's missing "scene_id"). -/
theorem c3_exact_failure_counterexample : ¬ claimC3Prop := by
  intro hcl
  have h := (hcl (fun _ => some (Json.obj [("scenes", Json.arr [Json.obj []])]))
      "r" "t" .calm "c" 45 "id").mp (by rfl)
  exact absurd h (by decide)

end AIVideo
